import Mathlib

/-!
Verification of the plane-battle arcade shooter's simulation core.

The development shallowly embeds the TypeScript sources: numeric values
(JS doubles holding small exact rationals in all code paths relevant here)
are modelled as `ℚ`, booleans as `Bool`, nullable/optional fields as
`Option`, and the mutable entity collections as lists threaded through
explicit state-passing functions.  Each definition mirrors one source
function; doc comments cite the source file.
-/

namespace PlaneBattle

/-! ## Geometry utilities (src/utils, checkCollision) -/

/-- Axis-aligned rectangle `{x, y, width, height}` (src/types `Rect`). -/
structure Rect where
  x : ℚ
  y : ℚ
  width : ℚ
  height : ℚ
  deriving Repr, DecidableEq

/-- `checkCollision(rect1, rect2)` from src/utils: strict inequalities on all
four comparisons, so touching edges do not collide. -/
def checkCollision (rect1 rect2 : Rect) : Bool :=
  decide (rect1.x < rect2.x + rect2.width) &&
  decide (rect1.x + rect1.width > rect2.x) &&
  decide (rect1.y < rect2.y + rect2.height) &&
  decide (rect1.y + rect1.height > rect2.y)

/-- A point strictly inside the horizontal span of a rectangle. -/
def Rect.insideX (r : Rect) (p : ℚ) : Prop :=
  r.x < p ∧ p < r.x + r.width

/-- A point strictly inside the vertical span of a rectangle. -/
def Rect.insideY (r : Rect) (p : ℚ) : Prop :=
  r.y < p ∧ p < r.y + r.height

/-! ## Player (src/entities/player.ts, latest revision with weapon levels) -/

/-- Player bullet type tag (src/entities/player.ts `BulletType`). -/
inductive WeaponType where
  | normal
  | spread
  | tracking
  | laser
  deriving Repr, DecidableEq

/-- Player state (src/entities/player.ts, latest revision).  `shield` and
`bulletLevel` are JS numbers that the code only ever sets to naturals
(shield counts down guarded by `> 0`, level counts 1–5), so they are
embedded as `ℕ`. -/
structure Player where
  x : ℚ
  y : ℚ
  width : ℚ := 40
  height : ℚ := 50
  health : ℚ
  maxHealth : ℚ
  shield : ℕ := 0
  bulletType : WeaponType := .normal
  bulletLevel : ℕ := 1
  shootCooldown : ℚ := 0
  deriving Repr, DecidableEq

/-- Player constructor (src/entities/player.ts `constructor`). -/
def Player.make (x y playerHealth : ℚ) : Player :=
  { x := x, y := y, health := playerHealth, maxHealth := playerHealth }

/-- `Player.reset(x, y)` (src/entities/player.ts lines 404–413). -/
def Player.reset (p : Player) (x y : ℚ) : Player :=
  { p with
    x := x, y := y, health := p.maxHealth, shield := 0,
    bulletType := .normal, bulletLevel := 1, shootCooldown := 0 }

/-- `Player.takeDamage(damage)` (src/entities/player.ts lines 452–463):
a positive shield absorbs the whole damage event, otherwise health drops
by `damage` floored at 0. -/
def Player.takeDamage (p : Player) (damage : ℚ) : Player :=
  if p.shield > 0 then
    { p with shield := p.shield - 1 }
  else
    let h := p.health - damage
    { p with health := if h < 0 then 0 else h }

/-- `Player.applyShield()` (src/entities/player.ts): stacks up to 5. -/
def Player.applyShield (p : Player) : Player :=
  if p.shield < 5 then { p with shield := p.shield + 1 } else p

/-- `Player.applyNormal()` (src/entities/player.ts lines 473–475):
switches the type to normal; the level is untouched in both branches. -/
def Player.applyNormal (p : Player) : Player :=
  { p with bulletType := .normal }

/-- `Player.applySpread()` (src/entities/player.ts lines 478–488). -/
def Player.applySpread (p : Player) : Player :=
  if p.bulletType = .spread then
    if p.bulletLevel < 5 then { p with bulletLevel := p.bulletLevel + 1 } else p
  else
    { p with bulletType := .spread }

/-- `Player.applyTracking()` (src/entities/player.ts lines 491–501). -/
def Player.applyTracking (p : Player) : Player :=
  if p.bulletType = .tracking then
    if p.bulletLevel < 5 then { p with bulletLevel := p.bulletLevel + 1 } else p
  else
    { p with bulletType := .tracking }

/-- `Player.applyLaser()` (src/entities/player.ts lines 504–514). -/
def Player.applyLaser (p : Player) : Player :=
  if p.bulletType = .laser then
    if p.bulletLevel < 5 then { p with bulletLevel := p.bulletLevel + 1 } else p
  else
    { p with bulletType := .laser }

/-- `Player.isDestroyed()`: health ≤ 0. -/
def Player.isDestroyed (p : Player) : Bool :=
  decide (p.health ≤ 0)

/-- `Player.getRect()` (centre-based box). -/
def Player.getRect (p : Player) : Rect :=
  { x := p.x - p.width / 2, y := p.y - p.height / 2,
    width := p.width, height := p.height }

/-- One weapon power-up application, as dispatched by
`GameEngine.applyPropEffect` to the four `apply*` weapon methods. -/
inductive WeaponPickup where
  | normal
  | spread
  | tracking
  | laser
  deriving Repr, DecidableEq

/-- Apply a single weapon pickup (src/entities/player.ts). -/
def Player.applyPickup (p : Player) : WeaponPickup → Player
  | .normal => p.applyNormal
  | .spread => p.applySpread
  | .tracking => p.applyTracking
  | .laser => p.applyLaser

/-- Apply a sequence of weapon pickups in order. -/
def Player.applyPickups (p : Player) (ops : List WeaponPickup) : Player :=
  ops.foldl Player.applyPickup p

/-! ## Enemies (src/entities/enemy.ts, src/entities/enemy-manager.ts) -/

/-- Enemy variant tag (src/types `EnemyType`). -/
inductive EnemyType where
  | normal
  | fast
  | heavy
  | boss
  | elite
  | shielded
  | bomber
  deriving Repr, DecidableEq

/-- Per-type stats record of `ENEMY_CONFIGS` (src/entities/enemy.ts). -/
structure EnemyStats where
  width : ℚ
  height : ℚ
  health : ℚ
  speed : ℚ
  score : ℚ
  color : String
  deriving Repr, DecidableEq

/-- `ENEMY_CONFIGS` table (src/entities/enemy.ts lines 11–19). -/
def enemyStats : EnemyType → EnemyStats
  | .normal => { width := 30, height := 30, health := 1, speed := 2, score := 10, color := "#e74c3c" }
  | .fast => { width := 25, height := 25, health := 1, speed := 4, score := 20, color := "#9b59b6" }
  | .heavy => { width := 45, height := 45, health := 3, speed := 1, score := 30, color := "#8e44ad" }
  | .boss => { width := 80, height := 80, health := 20, speed := 3/2, score := 500, color := "#c0392b" }
  | .elite => { width := 35, height := 35, health := 3, speed := 5, score := 50, color := "#e67e22" }
  | .shielded => { width := 40, height := 40, health := 2, speed := 2, score := 40, color := "#3498db" }
  | .bomber => { width := 50, height := 50, health := 2, speed := 1, score := 60, color := "#7f8c8d" }

/-- Enemy state (src/entities/enemy.ts). -/
structure Enemy where
  x : ℚ
  y : ℚ
  width : ℚ
  height : ℚ
  health : ℚ
  maxHealth : ℚ
  speed : ℚ
  score : ℚ
  etype : EnemyType
  active : Bool := true
  shootCooldown : ℚ := 0
  shootInterval : ℚ
  deriving Repr, DecidableEq

/-- Enemy constructor (src/entities/enemy.ts lines 51–67).  `speedMul` is the
level config's `enemySpeed` multiplier; `randInterval` is the value the source
draws via `randomInt(2000, 4000)` for non-boss types. -/
def Enemy.make (x y : ℚ) (t : EnemyType) (speedMul randInterval : ℚ) : Enemy :=
  let s := enemyStats t
  { x := x, y := y, width := s.width, height := s.height,
    health := s.health, maxHealth := s.health,
    speed := s.speed * speedMul, score := s.score, etype := t,
    shootInterval := if t = .boss then 1500 else randInterval }

/-- `Enemy.takeDamage(damage)` (src/entities/enemy.ts lines 93–98). -/
def Enemy.takeDamage (e : Enemy) (damage : ℚ) : Enemy :=
  let h := e.health - damage
  { e with health := if h < 0 then 0 else h }

/-- `Enemy.isDestroyed()` (src/entities/enemy.ts lines 101–103). -/
def Enemy.isDestroyed (e : Enemy) : Bool :=
  decide (e.health ≤ 0)

/-- `Enemy.destroy()` (src/entities/enemy.ts lines 106–108). -/
def Enemy.destroy (e : Enemy) : Enemy :=
  { e with active := false }

/-- `Enemy.update(deltaTime)` (src/entities/enemy.ts lines 70–80). -/
def Enemy.updateE (e : Enemy) (deltaTime : ℚ) : Enemy :=
  if e.active then
    { e with
      y := e.y + e.speed * (deltaTime / 16),
      shootCooldown :=
        if e.shootCooldown > 0 then e.shootCooldown - deltaTime else e.shootCooldown }
  else e

/-- `Enemy.isOutOfBounds()` (src/entities/enemy.ts lines 111–113). -/
def Enemy.isOutOfBounds (e : Enemy) (canvasHeight : ℚ) : Bool :=
  decide (e.y > canvasHeight + e.height)

/-- `Enemy.getRect()` (src/entities/enemy.ts lines 116–123). -/
def Enemy.getRect (e : Enemy) : Rect :=
  { x := e.x - e.width / 2, y := e.y - e.height / 2,
    width := e.width, height := e.height }

/-- `EnemyManager.update(deltaTime)` (src/entities/enemy-manager.ts lines
83–97): advance every active enemy, deactivate the ones that left the canvas,
then drop every non-active member from the collection. -/
def enemyManagerUpdate (deltaTime canvasHeight : ℚ) (enemies : List Enemy) : List Enemy :=
  (enemies.map fun e =>
    if e.active then
      let e' := e.updateE deltaTime
      if e'.isOutOfBounds canvasHeight then e'.destroy else e'
    else e).filter (fun e => e.active)

/-! ## Level configuration and level loading (src/types, GameEngine.loadLevel) -/

/-- `LevelConfig` (src/types).  `spawnInterval` is a JS number that
`loadLevel` overwrites with a floored quotient, hence `ℚ`. -/
structure LevelConfig where
  level : ℕ
  name : String
  enemyCount : ℕ
  spawnInterval : ℚ
  enemySpeed : ℚ
  bossLevel : Bool
  levelTime : ℚ
  deriving Repr, DecidableEq

/-- `LEVEL_CONFIGS[0]` (src/types). -/
def levelConfig1 : LevelConfig :=
  { level := 1, name := "L1", enemyCount := 175, spawnInterval := 1200,
    enemySpeed := 3/2, bossLevel := false, levelTime := 50 }

/-- `LEVEL_CONFIGS[1]` (src/types). -/
def levelConfig2 : LevelConfig :=
  { level := 2, name := "L2", enemyCount := 250, spawnInterval := 1000,
    enemySpeed := 2, bossLevel := false, levelTime := 50 }

/-- `LEVEL_CONFIGS[2]` (src/types). -/
def levelConfig3 : LevelConfig :=
  { level := 3, name := "L3", enemyCount := 300, spawnInterval := 800,
    enemySpeed := 5/2, bossLevel := false, levelTime := 50 }

/-- `LEVEL_CONFIGS[3]` (src/types). -/
def levelConfig4 : LevelConfig :=
  { level := 4, name := "L4", enemyCount := 360, spawnInterval := 700,
    enemySpeed := 3, bossLevel := false, levelTime := 50 }

/-- `LEVEL_CONFIGS[4]` (src/types). -/
def levelConfig5 : LevelConfig :=
  { level := 5, name := "L5", enemyCount := 420, spawnInterval := 600,
    enemySpeed := 7/2, bossLevel := true, levelTime := 50 }

/-- `LEVEL_CONFIGS` (src/types). -/
def LEVEL_CONFIGS : List LevelConfig :=
  [levelConfig1, levelConfig2, levelConfig3, levelConfig4, levelConfig5]

/-- The spawn-interval recomputation in `GameEngine.loadLevel` (game engine,
lines 589–606 of the current revision): the cloned level config's
`spawnInterval` is overwritten with
`Math.floor(levelTime * 1000 / enemyCount)`. -/
def loadLevelConfig (lc : LevelConfig) : LevelConfig :=
  { lc with spawnInterval := ((Int.floor (lc.levelTime * 1000 / (lc.enemyCount : ℚ)) : ℤ) : ℚ) }

/-! ## Game state machine (GameEngine.checkGameState, current revision) -/

/-- `GameState` (src/types). -/
inductive GameState where
  | menu
  | playing
  | paused
  | levelComplete
  | gameOver
  deriving Repr, DecidableEq

/-- The part of the `GameEngine` state read and written by
`checkGameState`. -/
structure EngineSt where
  state : GameState
  score : ℚ
  player : Player
  enemies : List Enemy
  enemiesSpawned : ℕ
  levelConfig : LevelConfig
  deriving Repr, DecidableEq

/-- `GameEngine.checkGameState()` (game engine, lines 794–809 of the current
revision): the player-death check runs first and returns immediately, then
the level-complete check compares `enemiesSpawned` with the configured
`enemyCount` and requires the enemy collection to be empty. -/
def checkGameState (g : EngineSt) : EngineSt :=
  if g.player.isDestroyed then
    { g with state := .gameOver }
  else
    let enemiesOnScreen := g.enemies.length
    let allSpawned := decide (g.enemiesSpawned ≥ g.levelConfig.enemyCount)
    if allSpawned && decide (enemiesOnScreen = 0) then
      { g with state := .levelComplete }
    else g

/-! ## Bullets and the collision passes (bullet manager, GameEngine.checkCollisions) -/

/-- Bullet record (bullet manager `Bullet`), restricted to the fields the
collision passes read. -/
structure Bullet where
  x : ℚ
  y : ℚ
  width : ℚ
  height : ℚ
  speed : ℚ
  damage : ℚ
  active : Bool := true
  isPlayer : Bool
  deriving Repr, DecidableEq

/-- `Bullet.getRect()` (bullet manager). -/
def Bullet.getRect (b : Bullet) : Rect :=
  { x := b.x - b.width / 2, y := b.y - b.height / 2,
    width := b.width, height := b.height }

/-- Inner loop of the player-bullet × enemy pass of
`GameEngine.checkCollisions` (current revision, lines 704–725): one bullet is
checked in order against every enemy; on an overlap with an active enemy the
bullet deactivates, the enemy takes the bullet's damage, and a destroyed
enemy is deactivated with its score value credited.  Returns the updated
bullet, the updated enemy list (same positions), and the score delta. -/
def bulletPass (b : Bullet) : List Enemy → Bullet × List Enemy × ℚ
  | [] => (b, [], 0)
  | e :: es =>
    if b.active && e.active && checkCollision b.getRect e.getRect then
      let b' := { b with active := false }
      let e' := e.takeDamage b.damage
      if e'.isDestroyed then
        let r := bulletPass b' es
        (r.1, e'.destroy :: r.2.1, e'.score + r.2.2)
      else
        let r := bulletPass b' es
        (r.1, e' :: r.2.1, r.2.2)
    else
      let r := bulletPass b es
      (r.1, e :: r.2.1, r.2.2)

/-- Outer loop of the player-bullet × enemy pass of
`GameEngine.checkCollisions`: every player bullet in order runs its inner
pass against the (already updated) enemy list; score deltas accumulate. -/
def bulletsPass : List Bullet → List Enemy → List Bullet × List Enemy × ℚ
  | [], es => ([], es, 0)
  | b :: bs, es =>
    let r := bulletPass b es
    let r2 := bulletsPass bs r.2.1
    (r.1 :: r2.1, r2.2.1, r.2.2 + r2.2.2)

/-- Positional sum of the score values of the enemies that went from active
to inactive between two same-length snapshots of the enemy list: the credit
each destroyed enemy contributes exactly once. -/
def creditSum : List Enemy → List Enemy → ℚ
  | e :: es, f :: fs => (if e.active && !f.active then e.score else 0) + creditSum es fs
  | _, _ => 0

/-- How one collision pass may evolve a single enemy: its score value is
untouched, activity only ever switches off, and an enemy that was already
inactive is excluded from collision and therefore untouched. -/
def enemyEvol (e f : Enemy) : Prop :=
  f.score = e.score ∧ (f.active = true → e.active = true) ∧ (e.active = false → f = e)

/-! ## Earlier-revision bullet manager with the duplicate enemy-bullet insert

The earlier bullet-manager revision's `createEnemyBullet` pushes the *same*
`Bullet` object into `this.bullets` twice.  To keep that aliasing, the
collection is modelled as an arena `store` of distinct bullet objects plus a
list `bullets` of indices into the arena; the duplicate push appends the same
index twice, and the collision pass reads and writes bullets through the
arena so that deactivating one occurrence deactivates the other. -/

/-- `GameConfig` (src/types), restricted to the fields used here. -/
structure GameConfig where
  canvasWidth : ℚ := 480
  canvasHeight : ℚ := 720
  playerSpeed : ℚ := 5
  bulletSpeed : ℚ := 8
  bulletDamage : ℚ := 1
  playerHealth : ℚ := 3
  deriving Repr, DecidableEq

/-- Earlier-revision `BulletManager` state: arena of bullet objects plus the
`bullets` array as indices (duplicates encode aliased pushes). -/
structure BulletCol where
  store : List Bullet
  bullets : List ℕ
  deriving Repr, DecidableEq

/-- Earlier-revision `Bullet` constructor for the default `normal` type
(width 4, height 12). -/
def Bullet.makeNormal (x y speed damage : ℚ) (isPlayer : Bool) : Bullet :=
  { x := x, y := y, width := 4, height := 12, speed := speed,
    damage := damage, isPlayer := isPlayer }

/-- `BulletManager.createEnemyBullet(x, y)` of the earlier revision (lines
186–197): one bullet object is created, then pushed into the collection
twice. -/
def createEnemyBullet (cfg : GameConfig) (x y : ℚ) (bm : BulletCol) : BulletCol :=
  let bullet := Bullet.makeNormal x y (cfg.bulletSpeed * (6/10)) 1 false
  { store := bm.store ++ [bullet],
    bullets := bm.bullets ++ [bm.store.length, bm.store.length] }

/-- State threaded through the enemy-bullet × player pass: the bullet arena,
the player, and the log of arena indices for which `player.takeDamage` was
invoked. -/
structure EBPassSt where
  store : List Bullet
  player : Player
  hits : List ℕ
  deriving Repr, DecidableEq

/-- One iteration of the enemy-bullet × player pass of
`GameEngine.checkCollisions` (earlier engine revision, lines 229–235): if the
bullet at this index is still active and overlaps the player, it deactivates
and the player takes its damage. -/
def enemyBulletStep (st : EBPassSt) (i : ℕ) : EBPassSt :=
  match st.store.get? i with
  | none => st
  | some b =>
    if b.active && checkCollision b.getRect st.player.getRect then
      { store := st.store.set i { b with active := false },
        player := st.player.takeDamage b.damage,
        hits := st.hits ++ [i] }
    else st

/-- The enemy-bullet × player pass: fold over the (possibly duplicated)
occurrences of enemy bullets in the collection. -/
def enemyBulletPass (ids : List ℕ) (st : EBPassSt) : EBPassSt :=
  ids.foldl enemyBulletStep st

/-! ## Particle system (src/utils/particle-system.ts) -/

/-- `ParticleType` (src/utils/particle-system.ts). -/
inductive ParticleType where
  | explosion
  | backgroundStars
  | bulletTrail
  | playerEngine
  | enemyDeath
  | powerup
  deriving Repr, DecidableEq

/-- `ParticleLifecycle` (src/utils/particle-system.ts). -/
inductive ParticleLifecycle where
  | spawning
  | alive
  | fading
  | dead
  deriving Repr, DecidableEq

/-- `Particle` record (src/utils/particle-system.ts lines 25–51). -/
structure Particle where
  x : ℚ
  y : ℚ
  vx : ℚ
  vy : ℚ
  size : ℚ
  alpha : ℚ
  color : String
  ptype : ParticleType
  lifecycle : ParticleLifecycle
  life : ℚ
  maxLife : ℚ
  rotation : ℚ
  rotationSpeed : ℚ
  active : Bool
  deriving Repr, DecidableEq

/-- `ParticleSystem.createParticle()` (src/utils/particle-system.ts lines
126–143); the object literal built when the pool is exhausted
(lines 154–169) is field-for-field identical. -/
def createParticle : Particle :=
  { x := 0, y := 0, vx := 0, vy := 0, size := 1, alpha := 1,
    color := "#ffffff", ptype := .explosion, lifecycle := .dead,
    life := 0, maxLife := 0, rotation := 0, rotationSpeed := 0,
    active := false }

/-- `ParticleSystem.getParticle()` (src/utils/particle-system.ts lines
146–173): scan the pool for the first non-active record; when every record is
active, append a fresh record to the pool and return it.  The source's
`Particle | null` return type is never `null`: both paths return a record, so
the embedding is total. -/
def getParticle (pool : List Particle) : Particle × List Particle :=
  match pool.find? (fun p => !p.active) with
  | some p => (p, pool)
  | none => (createParticle, pool ++ [createParticle])

/-- `ParticleSystem.releaseParticle(particle)` (src/utils/particle-system.ts
lines 176–179): only the `active` flag and lifecycle change. -/
def releaseParticle (p : Particle) : Particle :=
  { p with active := false, lifecycle := .dead }

/-- Releasing the pool record at index `i` (the source mutates the record
in place through its reference; out-of-range indices leave the pool as is). -/
def releaseAt (pool : List Particle) (i : ℕ) : List Particle :=
  match pool.get? i with
  | some p => pool.set i (releaseParticle p)
  | none => pool

/-- The per-particle body of `ParticleSystem.update(deltaTime)`
(src/utils/particle-system.ts lines 336–362): life counts down, alpha fades
once life is spent, position integrates under physics while alive, rotation
advances, and a fully faded particle is deactivated and released. -/
def updateParticle (sysUsePhysics : Bool) (deltaTime : ℚ) (p : Particle) : Particle :=
  if !p.active then p
  else
    let life' := p.life - deltaTime
    let alpha' := if life' ≤ 0 then p.alpha - deltaTime / p.maxLife else p.alpha
    let p1 :=
      if p.lifecycle = .alive && sysUsePhysics then
        { p with
          life := life', alpha := alpha',
          x := p.x + p.vx * (deltaTime / 16), y := p.y + p.vy * (deltaTime / 16) }
      else
        { p with life := life', alpha := alpha' }
    let p2 := { p1 with rotation := p1.rotation + p1.rotationSpeed * (deltaTime / 16) }
    if p2.alpha ≤ 0 then releaseParticle { p2 with active := false } else p2

/-- The effect of one `ParticleSystem.update` pass on the pool: the members
of the active list (`this.particles`, a set of references into the pool) are
updated in place; `act` is the list of their pool indices.  No operation of
the class ever removes a record from `particlePool`. -/
def tickPool (sysUsePhysics : Bool) (deltaTime : ℚ) (act : List ℕ)
    (pool : List Particle) : List Particle :=
  act.foldl (fun pl i =>
    match pl.get? i with
    | some p => pl.set i (updateParticle sysUsePhysics deltaTime p)
    | none => pl) pool

/-- The pool-touching operations of a `ParticleSystem` session. -/
inductive PoolOp where
  | acquire
  | release (i : ℕ)
  | tick (sysUsePhysics : Bool) (deltaTime : ℚ) (act : List ℕ)
  deriving Repr

/-- Apply one pool operation to the pool. -/
def applyPoolOp (pool : List Particle) : PoolOp → List Particle
  | .acquire => (getParticle pool).2
  | .release i => releaseAt pool i
  | .tick phys dt act => tickPool phys dt act pool

/-- Apply a sequence of pool operations. -/
def applyPoolOps (ops : List PoolOp) (pool : List Particle) : List Particle :=
  ops.foldl applyPoolOp pool

/-- `ParticleConfig` (src/utils/particle-system.ts lines 54–80): every field
optional, resolved through `??` chains at use sites. -/
structure PConfig where
  count : Option ℕ := none
  life : Option ℚ := none
  minSpeed : Option ℚ := none
  maxSpeed : Option ℚ := none
  minSize : Option ℚ := none
  maxSize : Option ℚ := none
  colors : Option (List String) := none
  rotationSpeed : Option ℚ := none
  useGradient : Option Bool := none
  usePhysics : Option Bool := none
  deriving Repr, DecidableEq

/-- `ParticleSystem.getDefaultConfig()` (src/utils/particle-system.ts lines
103–116); `this.config` after the constructor's merge with no overrides. -/
def defaultPConfig : PConfig :=
  { count := some 20, life := some 1000, minSpeed := some 1, maxSpeed := some 5,
    minSize := some 2, maxSize := some 8,
    colors := some ["#ff6b6b", "#feca57", "#ff9ff3", "#54a0ff", "#5f27cd"],
    rotationSpeed := some (1/10), useGradient := some true, usePhysics := some true }

/-- `config.life ?? this.config.life ?? 1000` in `initParticle`. -/
def resLife (cfg sys : PConfig) : ℚ := (cfg.life.getD (sys.life.getD 1000))

/-- `config.minSpeed ?? this.config.minSpeed ?? 1`. -/
def resMinSpeed (cfg sys : PConfig) : ℚ := (cfg.minSpeed.getD (sys.minSpeed.getD 1))

/-- `config.maxSpeed ?? this.config.maxSpeed ?? 5`. -/
def resMaxSpeed (cfg sys : PConfig) : ℚ := (cfg.maxSpeed.getD (sys.maxSpeed.getD 5))

/-- `config.minSize ?? this.config.minSize ?? 2`. -/
def resMinSize (cfg sys : PConfig) : ℚ := (cfg.minSize.getD (sys.minSize.getD 2))

/-- `config.maxSize ?? this.config.maxSize ?? 8`. -/
def resMaxSize (cfg sys : PConfig) : ℚ := (cfg.maxSize.getD (sys.maxSize.getD 8))

/-- `config.colors ?? this.config.colors ?? ["#ffffff"]`. -/
def resColors (cfg sys : PConfig) : List String :=
  (cfg.colors.getD (sys.colors.getD ["#ffffff"]))

/-- `config.rotationSpeed ?? this.config.rotationSpeed ?? 0.1`. -/
def resRotSpeed (cfg sys : PConfig) : ℚ :=
  (cfg.rotationSpeed.getD (sys.rotationSpeed.getD (1/10)))

/-- The truthiness test `if (config.usePhysics)` in `initParticle`: a missing
field is falsy, so no fallback to the system config happens here. -/
def resUsePhysics (cfg : PConfig) : Bool := cfg.usePhysics.getD false

/-- The palette index `Math.floor(Math.random() * (palette.length - 1))`
computed by `initParticle` (src/utils/particle-system.ts lines 323–328),
with `rColor` standing for the `Math.random()` draw. -/
def colorIndex (palette : List String) (rColor : ℚ) : ℕ :=
  (Int.floor (rColor * ((palette.length : ℚ) - 1))).toNat

/-- `ParticleSystem.initParticle(particle, x, y, type, config)`
(src/utils/particle-system.ts lines 286–331).  The random draws are passed
in: `rRot`, `rRotSpeed`, `rSpeed`, `rSize`, `rColor` are the `Math.random()`
values in source order, each in `[0, 1)`.  The angle enters only through
`Math.cos`/`Math.sin`, so the embedding takes the oracle pair
(`cosAngle`, `sinAngle`) with `cosAngle² + sinAngle² = 1`, and `rotVal`
stands for the already scaled `Math.random() * Math.PI * 2`. -/
def initParticle (p : Particle) (x y : ℚ) (t : ParticleType) (cfg sys : PConfig)
    (rotVal rRotSpeed rSpeed cosAngle sinAngle rSize rColor : ℚ) : Particle :=
  let life := resLife cfg sys
  let speed := rSpeed * resMaxSpeed cfg sys + resMinSpeed cfg sys
  let palette := resColors cfg sys
  { p with
    x := x, y := y, ptype := t, lifecycle := .alive,
    life := life, maxLife := life,
    rotation := rotVal,
    rotationSpeed := (rRotSpeed - 1/2) * resRotSpeed cfg sys,
    vx := if resUsePhysics cfg then cosAngle * speed else 0,
    vy := if resUsePhysics cfg then sinAngle * speed else 0,
    size := rSize * resMaxSize cfg sys + resMinSize cfg sys,
    color := palette.getD (colorIndex palette rColor) "#ffffff",
    alpha := 1, active := true }

/-! ## C1 / C2: terminal-state checks -/

/-- C1: player death takes priority over level completion.  For every tick
executed in the playing state, if the player's health is ≤ 0 when
`checkGameState` runs, the resulting state is `gameOver` — regardless of the
spawn counter and the enemy collection, so in particular even when the
level-complete condition holds simultaneously. -/
theorem checkGameState_death_priority (g : EngineSt)
    (_hplay : g.state = GameState.playing) (hdead : g.player.health ≤ 0) :
    (checkGameState g).state = GameState.gameOver := by
  simp [checkGameState, Player.isDestroyed, hdead]

/-- Witness for C1: a concrete playing state with health 0 in which all 175
enemies of level 1 have been spawned and the enemy collection is empty (the
level-complete condition holds as well); the check still yields `gameOver`. -/
theorem checkGameState_death_priority_witness :
    (checkGameState
      { state := .playing, score := 0,
        player := { Player.make 240 640 3 with health := 0 },
        enemies := [], enemiesSpawned := 175,
        levelConfig := levelConfig1 }).state = GameState.gameOver ∧
    levelConfig1.enemyCount ≤ 175 ∧
    ([] : List Enemy).length = 0 :=
  ⟨checkGameState_death_priority _ rfl (by norm_num), by decide, rfl⟩

/-- C2: for a tick in the playing state with the player alive, the state
becomes `levelComplete` exactly when the spawn counter has reached the
level's configured `enemyCount` and the enemy manager's collection is empty;
moreover the collection retains only active members after
`EnemyManager.update`'s filter pass. -/
theorem checkGameState_levelComplete_iff (g : EngineSt)
    (hplay : g.state = GameState.playing) (halive : 0 < g.player.health) :
    ((checkGameState g).state = GameState.levelComplete ↔
      (g.levelConfig.enemyCount ≤ g.enemiesSpawned ∧ g.enemies = [])) ∧
    (∀ (dt ch : ℚ) (es : List Enemy),
      ∀ e ∈ enemyManagerUpdate dt ch es, e.active = true) := by
  constructor
  · have hnd : g.player.isDestroyed = false := by
      simp [Player.isDestroyed]
      linarith
    by_cases hcond : g.levelConfig.enemyCount ≤ g.enemiesSpawned ∧ g.enemies = []
    · obtain ⟨h1, h2⟩ := hcond
      simp [checkGameState, hnd, h1, h2, ge_iff_le]
    · constructor
      · intro hlc
        rcases not_and_or.mp hcond with h | h
        · have : (checkGameState g).state = g.state := by
            simp [checkGameState, hnd, ge_iff_le, h]
          rw [this, hplay] at hlc
          exact GameState.noConfusion hlc
        · have hne : g.enemies.length ≠ 0 := by
            simpa [List.length_eq_zero] using h
          have : (checkGameState g).state = g.state := by
            simp [checkGameState, hnd, ge_iff_le, hne]
          rw [this, hplay] at hlc
          exact GameState.noConfusion hlc
      · intro h
        exact absurd h hcond
  · intro dt ch es e he
    exact (List.mem_filter.mp he).2

/-- Witness for C2: a concrete playing state with a full-health player, all
175 level-1 enemies spawned, and an empty enemy collection transitions to
`levelComplete`; and the update pass of a sample enemy collection keeps only
active members. -/
theorem checkGameState_levelComplete_iff_witness :
    (checkGameState
      { state := .playing, score := 320,
        player := Player.make 240 640 3,
        enemies := [], enemiesSpawned := 175,
        levelConfig := levelConfig1 }).state = GameState.levelComplete :=
  ((checkGameState_levelComplete_iff _ rfl (by norm_num [Player.make])).1).mpr
    ⟨by decide, rfl⟩

/-! ## C4: weapon level invariant -/

/-- Helper: a single weapon pickup either keeps the level or raises it by one
(and the raise only happens below the cap). -/
lemma applyPickup_level_step (p : Player) (op : WeaponPickup) :
    (p.applyPickup op).bulletLevel = p.bulletLevel ∨
    ((p.applyPickup op).bulletLevel = p.bulletLevel + 1 ∧ p.bulletLevel < 5) := by
  cases op with
  | normal => left; rfl
  | spread =>
    by_cases ht : p.bulletType = .spread
    · by_cases hl : p.bulletLevel < 5
      · right
        exact ⟨by simp [Player.applyPickup, Player.applySpread, ht, hl], hl⟩
      · left; simp [Player.applyPickup, Player.applySpread, ht, hl]
    · left; simp [Player.applyPickup, Player.applySpread, ht]
  | tracking =>
    by_cases ht : p.bulletType = .tracking
    · by_cases hl : p.bulletLevel < 5
      · right
        exact ⟨by simp [Player.applyPickup, Player.applyTracking, ht, hl], hl⟩
      · left; simp [Player.applyPickup, Player.applyTracking, ht, hl]
    · left; simp [Player.applyPickup, Player.applyTracking, ht]
  | laser =>
    by_cases ht : p.bulletType = .laser
    · by_cases hl : p.bulletLevel < 5
      · right
        exact ⟨by simp [Player.applyPickup, Player.applyLaser, ht, hl], hl⟩
      · left; simp [Player.applyPickup, Player.applyLaser, ht, hl]
    · left; simp [Player.applyPickup, Player.applyLaser, ht]

/-- Helper: the `[1,5]` level window is preserved by every pickup. -/
lemma applyPickup_level_bounds (p : Player) (op : WeaponPickup)
    (h1 : 1 ≤ p.bulletLevel) (h5 : p.bulletLevel ≤ 5) :
    1 ≤ (p.applyPickup op).bulletLevel ∧ (p.applyPickup op).bulletLevel ≤ 5 := by
  rcases applyPickup_level_step p op with h | ⟨h, hlt⟩ <;> rw [h] <;> omega

/-- Counterexample to C4 as stated: a same-type *normal* pickup does not
increment the weapon level.  The freshly constructed player has
`bulletType = normal` and `bulletLevel = 1`, and `applyNormal` leaves the
level at 1 instead of raising it to 2. -/
theorem applyNormal_no_same_type_upgrade :
    (Player.make 240 640 3).bulletType = WeaponType.normal ∧
    ((Player.make 240 640 3).applyNormal).bulletLevel = 1 ∧
    ¬ ((Player.make 240 640 3).applyNormal).bulletLevel =
        (Player.make 240 640 3).bulletLevel + 1 := by
  refine ⟨rfl, rfl, ?_⟩
  decide

/-- C4 (amended): across every sequence of pickups the weapon level stays in
`[1,5]`; a same-type `applySpread`/`applyTracking`/`applyLaser` pickup raises
the level by 1 below the cap of 5 (while `applyNormal` always leaves the
level unchanged, even on a same-type pickup); a different-type pickup
switches the type and leaves the level exactly unchanged; no pickup ever
lowers the level, and only `Player.reset` sets it back to 1. -/
theorem weapon_level_invariant :
    (∀ (p : Player) (ops : List WeaponPickup),
        1 ≤ p.bulletLevel → p.bulletLevel ≤ 5 →
        1 ≤ (p.applyPickups ops).bulletLevel ∧
        (p.applyPickups ops).bulletLevel ≤ 5) ∧
    (∀ p : Player, p.bulletType = .spread →
        (p.applySpread).bulletLevel =
          (if p.bulletLevel < 5 then p.bulletLevel + 1 else p.bulletLevel) ∧
        (p.applySpread).bulletType = .spread) ∧
    (∀ p : Player, p.bulletType = .tracking →
        (p.applyTracking).bulletLevel =
          (if p.bulletLevel < 5 then p.bulletLevel + 1 else p.bulletLevel) ∧
        (p.applyTracking).bulletType = .tracking) ∧
    (∀ p : Player, p.bulletType = .laser →
        (p.applyLaser).bulletLevel =
          (if p.bulletLevel < 5 then p.bulletLevel + 1 else p.bulletLevel) ∧
        (p.applyLaser).bulletType = .laser) ∧
    (∀ p : Player, p.bulletType ≠ .spread →
        (p.applySpread).bulletType = .spread ∧
        (p.applySpread).bulletLevel = p.bulletLevel) ∧
    (∀ p : Player, p.bulletType ≠ .tracking →
        (p.applyTracking).bulletType = .tracking ∧
        (p.applyTracking).bulletLevel = p.bulletLevel) ∧
    (∀ p : Player, p.bulletType ≠ .laser →
        (p.applyLaser).bulletType = .laser ∧
        (p.applyLaser).bulletLevel = p.bulletLevel) ∧
    (∀ p : Player,
        (p.applyNormal).bulletType = .normal ∧
        (p.applyNormal).bulletLevel = p.bulletLevel) ∧
    (∀ (p : Player) (op : WeaponPickup),
        p.bulletLevel ≤ (p.applyPickup op).bulletLevel) ∧
    (∀ (p : Player) (x y : ℚ), (p.reset x y).bulletLevel = 1) := by
  refine ⟨?_, ?_, ?_, ?_, ?_, ?_, ?_, ?_, ?_, ?_⟩
  · intro p ops
    induction ops generalizing p with
    | nil => intro h1 h5; exact ⟨h1, h5⟩
    | cons op ops ih =>
      intro h1 h5
      have hb := applyPickup_level_bounds p op h1 h5
      simpa [Player.applyPickups] using ih (p.applyPickup op) hb.1 hb.2
  · intro p h
    by_cases hl : p.bulletLevel < 5 <;> simp [Player.applySpread, h, hl]
  · intro p h
    by_cases hl : p.bulletLevel < 5 <;> simp [Player.applyTracking, h, hl]
  · intro p h
    by_cases hl : p.bulletLevel < 5 <;> simp [Player.applyLaser, h, hl]
  · intro p h
    simp [Player.applySpread, h]
  · intro p h
    simp [Player.applyTracking, h]
  · intro p h
    simp [Player.applyLaser, h]
  · intro p
    simp [Player.applyNormal]
  · intro p op
    rcases applyPickup_level_step p op with h | ⟨h, _⟩ <;> omega
  · intro p x y
    rfl

/-- Witness for C4 (amended): after seven spread pickups in a row the fresh
player's weapon level is still within `[1,5]`. -/
theorem weapon_level_invariant_witness :
    1 ≤ (Player.make 240 640 3).bulletLevel ∧
    (Player.make 240 640 3).bulletLevel ≤ 5 ∧
    (1 ≤ ((Player.make 240 640 3).applyPickups
        [.spread, .spread, .spread, .spread, .spread, .spread, .spread]).bulletLevel ∧
      ((Player.make 240 640 3).applyPickups
        [.spread, .spread, .spread, .spread, .spread, .spread, .spread]).bulletLevel ≤ 5) :=
  ⟨by decide, by decide,
   weapon_level_invariant.1 (Player.make 240 640 3)
     [.spread, .spread, .spread, .spread, .spread, .spread, .spread]
     (by decide) (by decide)⟩

/-! ## C3: shield absorbs damage 1-for-1 before health -/

/-- C3: `Player.takeDamage` with a positive shield consumes exactly one
shield point and leaves health untouched, whatever the damage value; from
shield = 2, two successive hits of damage 1 leave health unchanged and end
with shield = 0. -/
theorem takeDamage_shield_first :
    (∀ (p : Player) (damage : ℚ), 0 < p.shield →
        (p.takeDamage damage).shield = p.shield - 1 ∧
        (p.takeDamage damage).health = p.health) ∧
    (∀ p : Player, p.shield = 2 →
        ((p.takeDamage 1).takeDamage 1).health = p.health ∧
        ((p.takeDamage 1).takeDamage 1).shield = 0) := by
  constructor
  · intro p damage hs
    simp [Player.takeDamage, hs]
  · intro p hs
    simp [Player.takeDamage, hs]

/-- Witness for C3: a concrete player with 3 health and shield 2 takes two
hits of damage 1; health stays 3 and the shield is depleted to 0. -/
theorem takeDamage_shield_first_witness :
    0 < ({ Player.make 240 640 3 with shield := 2 } : Player).shield ∧
    ((({ Player.make 240 640 3 with shield := 2 } : Player).takeDamage 1).takeDamage 1).health = 3 ∧
    ((({ Player.make 240 640 3 with shield := 2 } : Player).takeDamage 1).takeDamage 1).shield = 0 :=
  ⟨by decide,
   (takeDamage_shield_first.2 { Player.make 240 640 3 with shield := 2 } rfl).1,
   (takeDamage_shield_first.2 { Player.make 240 640 3 with shield := 2 } rfl).2⟩

/-! ## C6: spawn interval at level load -/

/-- C6: `loadLevel` recomputes the spawn interval as
`floor(levelTime * 1000 / enemyCount)` milliseconds from the level's
configuration, and for level 1 (levelTime = 50 s, enemyCount = 175) the
computed interval is 285 ms. -/
theorem loadLevel_spawnInterval :
    (∀ lc : LevelConfig, (loadLevelConfig lc).spawnInterval =
        ((Int.floor (lc.levelTime * 1000 / (lc.enemyCount : ℚ)) : ℤ) : ℚ)) ∧
    levelConfig1.levelTime = 50 ∧
    levelConfig1.enemyCount = 175 ∧
    LEVEL_CONFIGS.head? = some levelConfig1 ∧
    (loadLevelConfig levelConfig1).spawnInterval = 285 := by
  refine ⟨fun lc => rfl, rfl, rfl, rfl, ?_⟩
  norm_num [loadLevelConfig, levelConfig1]

/-! ## C9: rectangle overlap test -/

/-- Helper: two positive-length open intervals share a point exactly when the
strict cross comparisons hold. -/
lemma interval_overlap {l1 w1 l2 w2 : ℚ} (hw1 : 0 < w1) (hw2 : 0 < w2) :
    (l1 < l2 + w2 ∧ l2 < l1 + w1) ↔
    ∃ p : ℚ, (l1 < p ∧ p < l1 + w1) ∧ (l2 < p ∧ p < l2 + w2) := by
  constructor
  · rintro ⟨h1, h2⟩
    refine ⟨(max l1 l2 + min (l1 + w1) (l2 + w2)) / 2, ⟨?_, ?_⟩, ⟨?_, ?_⟩⟩
    · have ha : l1 ≤ max l1 l2 := le_max_left _ _
      have hb : max l1 l2 < min (l1 + w1) (l2 + w2) := by
        rw [max_lt_iff]
        constructor <;> rw [lt_min_iff] <;> constructor <;> linarith
      linarith
    · have ha : min (l1 + w1) (l2 + w2) ≤ l1 + w1 := min_le_left _ _
      have hb : max l1 l2 < min (l1 + w1) (l2 + w2) := by
        rw [max_lt_iff]
        constructor <;> rw [lt_min_iff] <;> constructor <;> linarith
      linarith
    · have ha : l2 ≤ max l1 l2 := le_max_right _ _
      have hb : max l1 l2 < min (l1 + w1) (l2 + w2) := by
        rw [max_lt_iff]
        constructor <;> rw [lt_min_iff] <;> constructor <;> linarith
      linarith
    · have ha : min (l1 + w1) (l2 + w2) ≤ l2 + w2 := min_le_right _ _
      have hb : max l1 l2 < min (l1 + w1) (l2 + w2) := by
        rw [max_lt_iff]
        constructor <;> rw [lt_min_iff] <;> constructor <;> linarith
      linarith
  · rintro ⟨p, ⟨ha1, ha2⟩, ⟨hb1, hb2⟩⟩
    constructor <;> linarith

/-- Helper: `checkCollision` unfolded to its four strict comparisons. -/
lemma checkCollision_eq_true_iff (a b : Rect) :
    checkCollision a b = true ↔
    (a.x < b.x + b.width ∧ b.x < a.x + a.width ∧
     a.y < b.y + b.height ∧ b.y < a.y + a.height) := by
  simp [checkCollision, and_assoc, gt_iff_lt]

/-- C9: `checkCollision` is symmetric; for rectangles of positive size it
holds exactly when the two boxes' projections strictly overlap on both axes
(witnessed by a common interior point on each axis); and rectangles that
merely touch along an edge (shared boundary coordinate) do not overlap. -/
theorem checkCollision_symm_strict :
    (∀ a b : Rect, checkCollision a b = checkCollision b a) ∧
    (∀ a b : Rect, 0 < a.width → 0 < a.height → 0 < b.width → 0 < b.height →
        (checkCollision a b = true ↔
          ((∃ px, a.insideX px ∧ b.insideX px) ∧
           (∃ py, a.insideY py ∧ b.insideY py)))) ∧
    (∀ a b : Rect, a.x + a.width = b.x → checkCollision a b = false) := by
  refine ⟨?_, ?_, ?_⟩
  · intro a b
    rw [Bool.eq_iff_iff, checkCollision_eq_true_iff, checkCollision_eq_true_iff]
    tauto
  · intro a b haw hah hbw hbh
    rw [checkCollision_eq_true_iff]
    constructor
    · rintro ⟨h1, h2, h3, h4⟩
      exact ⟨(interval_overlap haw hbw).mp ⟨h1, h2⟩,
             (interval_overlap hah hbh).mp ⟨h3, h4⟩⟩
    · rintro ⟨hx, hy⟩
      have hx' := (interval_overlap haw hbw).mpr hx
      have hy' := (interval_overlap hah hbh).mpr hy
      exact ⟨hx'.1, hx'.2, hy'.1, hy'.2⟩
  · intro a b h
    have : ¬ (a.x < b.x + b.width ∧ b.x < a.x + a.width ∧
        a.y < b.y + b.height ∧ b.y < a.y + a.height) := by
      rintro ⟨_, h2, _, _⟩
      rw [h] at h2
      exact lt_irrefl _ h2
    rcases hb : checkCollision a b with _ | _
    · rfl
    · exact absurd ((checkCollision_eq_true_iff a b).mp hb) this

/-- Witness for C9: two concrete overlapping 10×10 rectangles produce common
interior points on both axes via the characterization, and the symmetry and
touching-edge conjuncts evaluate on concrete rectangles. -/
theorem checkCollision_symm_strict_witness :
    checkCollision ⟨0, 0, 10, 10⟩ ⟨5, 5, 10, 10⟩ =
      checkCollision ⟨5, 5, 10, 10⟩ ⟨0, 0, 10, 10⟩ ∧
    ((∃ px, Rect.insideX ⟨0, 0, 10, 10⟩ px ∧ Rect.insideX ⟨5, 5, 10, 10⟩ px) ∧
     (∃ py, Rect.insideY ⟨0, 0, 10, 10⟩ py ∧ Rect.insideY ⟨5, 5, 10, 10⟩ py)) ∧
    checkCollision ⟨0, 0, 10, 10⟩ ⟨10, 0, 10, 10⟩ = false :=
  ⟨checkCollision_symm_strict.1 _ _,
   (checkCollision_symm_strict.2.1 ⟨0, 0, 10, 10⟩ ⟨5, 5, 10, 10⟩
      (by norm_num) (by norm_num) (by norm_num) (by norm_num)).mp
      (by norm_num [checkCollision]),
   checkCollision_symm_strict.2.2 ⟨0, 0, 10, 10⟩ ⟨10, 0, 10, 10⟩ (by norm_num)⟩

/-! ## C7: particle pool acquisition, release and growth -/

/-- Helper: the scan of `getParticle` finds the first inactive record. -/
lemma find_inactive_first (pool : List Particle)
    (h : ∃ q ∈ pool, q.active = false) :
    ∃ l1 p l2, pool = l1 ++ p :: l2 ∧ p.active = false ∧
      (∀ r ∈ l1, r.active = true) ∧
      pool.find? (fun r => !r.active) = some p := by
  induction pool with
  | nil => simp at h
  | cons a pool ih =>
    by_cases ha : a.active = false
    · refine ⟨[], a, pool, rfl, ha, by simp, ?_⟩
      exact List.find?_cons_of_pos _ (by simp [ha])
    · have ha' : a.active = true := by
        cases hb : a.active
        · exact absurd hb ha
        · rfl
      have h' : ∃ q ∈ pool, q.active = false := by
        rcases h with ⟨q, hq, hqa⟩
        rcases List.mem_cons.mp hq with rfl | hq'
        · exact absurd hqa ha
        · exact ⟨q, hq', hqa⟩
      rcases ih h' with ⟨l1, p, l2, heq, hp, hall, hfind⟩
      refine ⟨a :: l1, p, l2, by rw [heq, List.cons_append], hp, ?_, ?_⟩
      · intro r hr
        rcases List.mem_cons.mp hr with rfl | hr'
        · exact ha'
        · exact hall r hr'
      · rw [List.find?_cons_of_neg _ (by simp [ha']), hfind]

/-- Helper: a tick pass rewrites pool records in place, never changing the
pool's length. -/
lemma tickPool_length (phys : Bool) (dt : ℚ) :
    ∀ (act : List ℕ) (pool : List Particle),
      (tickPool phys dt act pool).length = pool.length := by
  intro act
  induction act with
  | nil => intro pool; rfl
  | cons i act ih =>
    intro pool
    cases hg : pool[i]? with
    | some p =>
      have h1 : tickPool phys dt (i :: act) pool
          = tickPool phys dt act (pool.set i (updateParticle phys dt p)) := by
        simp [tickPool, hg]
      rw [h1, ih, List.length_set]
    | none =>
      have h1 : tickPool phys dt (i :: act) pool = tickPool phys dt act pool := by
        simp [tickPool, hg]
      rw [h1, ih]

/-- Helper: each pool operation can only keep or grow the pool. -/
lemma applyPoolOp_length_le (pool : List Particle) (op : PoolOp) :
    pool.length ≤ (applyPoolOp pool op).length := by
  cases op with
  | acquire =>
    simp only [applyPoolOp, getParticle]
    cases hf : pool.find? (fun p => !p.active) with
    | some p => simp
    | none => simp
  | release i =>
    simp only [applyPoolOp, releaseAt]
    cases hg : pool.get? i with
    | some p => simp [List.length_set]
    | none => simp
  | tick phys dt act =>
    simp only [applyPoolOp]
    rw [tickPool_length]

/-- C7: particle acquisition never fails and the pool never shrinks.
`getParticle` returns the first record with `active = false` when one exists
(pool unchanged); when every record is active it appends one fresh inactive
record and returns it; `releaseParticle` only clears the `active` flag and
lifecycle without removing the record or touching any other field; and
across any sequence of acquire/release/tick operations the pool's length
never decreases. -/
theorem particle_pool_growth :
    (∀ pool : List Particle, (∃ q ∈ pool, q.active = false) →
        ∃ l1 p l2, pool = l1 ++ p :: l2 ∧ p.active = false ∧
          (∀ r ∈ l1, r.active = true) ∧
          getParticle pool = (p, pool)) ∧
    (∀ pool : List Particle, (∀ q ∈ pool, q.active = true) →
        getParticle pool = (createParticle, pool ++ [createParticle]) ∧
        createParticle.active = false) ∧
    (∀ p : Particle,
        (releaseParticle p).active = false ∧
        (releaseParticle p).lifecycle = ParticleLifecycle.dead ∧
        (releaseParticle p).x = p.x ∧ (releaseParticle p).y = p.y ∧
        (releaseParticle p).vx = p.vx ∧ (releaseParticle p).vy = p.vy ∧
        (releaseParticle p).size = p.size ∧ (releaseParticle p).alpha = p.alpha ∧
        (releaseParticle p).color = p.color ∧ (releaseParticle p).ptype = p.ptype ∧
        (releaseParticle p).life = p.life ∧ (releaseParticle p).maxLife = p.maxLife ∧
        (releaseParticle p).rotation = p.rotation ∧
        (releaseParticle p).rotationSpeed = p.rotationSpeed) ∧
    (∀ (pool : List Particle) (i : ℕ),
        (releaseAt pool i).length = pool.length ∧
        (∀ j, j ≠ i → (releaseAt pool i).get? j = pool.get? j) ∧
        (∀ p, pool.get? i = some p →
            (releaseAt pool i).get? i = some (releaseParticle p))) ∧
    (∀ (ops : List PoolOp) (pool : List Particle),
        pool.length ≤ (applyPoolOps ops pool).length) := by
  refine ⟨?_, ?_, ?_, ?_, ?_⟩
  · intro pool h
    rcases find_inactive_first pool h with ⟨l1, p, l2, heq, hp, hall, hfind⟩
    exact ⟨l1, p, l2, heq, hp, hall, by simp [getParticle, hfind]⟩
  · intro pool h
    have hfind : pool.find? (fun r => !r.active) = none := by
      apply List.find?_eq_none.mpr
      intro x hx
      simp [h x hx]
    exact ⟨by simp [getParticle, hfind], rfl⟩
  · intro p
    exact ⟨rfl, rfl, rfl, rfl, rfl, rfl, rfl, rfl, rfl, rfl, rfl, rfl, rfl, rfl⟩
  · intro pool i
    refine ⟨?_, ?_, ?_⟩
    · simp only [releaseAt]
      cases hg : pool.get? i with
      | some p => simp [List.length_set]
      | none => rfl
    · intro j hj
      simp only [releaseAt]
      cases hg : pool.get? i with
      | some p => exact List.get?_set_ne _ _ (fun hij => hj hij.symm)
      | none => rfl
    · intro p hp
      have hlt : i < pool.length := (List.get?_eq_some.mp hp).1
      simp only [releaseAt, hp]
      rw [List.get?_set_eq_of_lt _ hlt]
  · intro ops
    induction ops with
    | nil => intro pool; simp [applyPoolOps]
    | cons op ops ih =>
      intro pool
      calc pool.length
          ≤ (applyPoolOp pool op).length := applyPoolOp_length_le pool op
        _ ≤ (applyPoolOps ops (applyPoolOp pool op)).length := ih _
        _ = (applyPoolOps (op :: ops) pool).length := by simp [applyPoolOps]

/-- Witness for C7: acquisition on a one-element all-active pool appends a
fresh inactive record and returns it, and a pool that contains an inactive
record hands back its first inactive member with the pool unchanged. -/
theorem particle_pool_growth_witness :
    (getParticle [{ createParticle with active := true }] =
      (createParticle, [{ createParticle with active := true }, createParticle])) ∧
    getParticle [createParticle] = (createParticle, [createParticle]) := by
  constructor
  · exact (particle_pool_growth.2.1 [{ createParticle with active := true }]
      (by intro q hq; simp at hq; rw [hq])).1
  · rcases particle_pool_growth.1 [createParticle]
      ⟨createParticle, by simp, rfl⟩ with ⟨l1, p, l2, heq, _, _, hget⟩
    have hl1 : l1 = [] := by
      cases l1 with
      | nil => rfl
      | cons a l1 =>
        rcases List.cons_eq_cons.mp heq.symm with ⟨_, h2⟩
        exact absurd h2 (by simp)
    subst hl1
    rcases List.cons_eq_cons.mp heq.symm with ⟨hp, _⟩
    rw [hget, hp]

/-! ## C10: duplicated enemy-bullet insert still damages at most once -/

/-- Invariant of the enemy-bullet × player pass: every arena index has been
logged as a hit at most once, and a logged index points at a deactivated
bullet. -/
def EBInv (st : EBPassSt) : Prop :=
  ∀ j, st.hits.count j ≤ 1 ∧
    (1 ≤ st.hits.count j → ∀ b, st.store.get? j = some b → b.active = false)

/-- Helper: one iteration of the pass preserves the hit invariant. -/
lemma enemyBulletStep_inv (st : EBPassSt) (i : ℕ) (h : EBInv st) :
    EBInv (enemyBulletStep st i) := by
  intro j
  unfold enemyBulletStep
  cases hg : st.store.get? i with
  | none => exact h j
  | some b =>
    by_cases hcond : (b.active && checkCollision b.getRect st.player.getRect) = true
    · simp only [hcond, if_true]
      by_cases hij : j = i
      · subst hij
        have hab : b.active = true ∧ checkCollision b.getRect st.player.getRect = true := by
          simpa using hcond
        have hb : b.active = true := hab.1
        have hcnt0 : st.hits.count j = 0 := by
          by_contra hne
          have h1 : 1 ≤ st.hits.count j := Nat.one_le_iff_ne_zero.mpr hne
          have := (h j).2 h1 b hg
          rw [this] at hb
          exact Bool.noConfusion hb
        have hlt : j < st.store.length := (List.get?_eq_some.mp hg).1
        constructor
        · simp [List.count_append, hcnt0]
        · intro _ b' hb'
          rw [List.get?_set_eq_of_lt _ hlt] at hb'
          cases hb'
          rfl
      · have hone : List.count j [i] = 0 := by
          simp [List.count_singleton', hij]
        constructor
        · rw [List.count_append, hone]
          have := (h j).1
          omega
        · intro h1 b' hb'
          rw [List.get?_set_ne _ _ (fun hij' => hij hij'.symm)] at hb'
          rw [List.count_append, hone] at h1
          exact (h j).2 (by omega) b' hb'
    · simp only [hcond, if_false]
      exact h j

/-- Helper: the whole pass preserves the hit invariant. -/
lemma enemyBulletPass_inv (ids : List ℕ) (st : EBPassSt) (h : EBInv st) :
    EBInv (enemyBulletPass ids st) := by
  induction ids generalizing st with
  | nil => exact h
  | cons i ids ih =>
    have : enemyBulletPass (i :: ids) st = enemyBulletPass ids (enemyBulletStep st i) := rfl
    rw [this]
    exact ih _ (enemyBulletStep_inv st i h)

/-- C10: the earlier bullet-manager revision's `createEnemyBullet` pushes the
same bullet object into the collection twice, yet every enemy bullet damages
the player at most once per shot: the pass deactivates a bullet on its first
overlap and checks the `active` flag before each hit, so each arena index is
logged as a `takeDamage` invocation at most once, duplicates included. -/
theorem enemy_bullet_single_hit :
    (∀ (cfg : GameConfig) (x y : ℚ) (bm : BulletCol),
        (createEnemyBullet cfg x y bm).bullets =
          bm.bullets ++ [bm.store.length, bm.store.length] ∧
        (createEnemyBullet cfg x y bm).store =
          bm.store ++ [Bullet.makeNormal x y (cfg.bulletSpeed * (6/10)) 1 false]) ∧
    (∀ (ids : List ℕ) (store : List Bullet) (player : Player) (i : ℕ),
        (enemyBulletPass ids
          { store := store, player := player, hits := [] }).hits.count i ≤ 1) := by
  constructor
  · intro cfg x y bm
    exact ⟨rfl, rfl⟩
  · intro ids store player i
    have hinv : EBInv { store := store, player := player, hits := [] } := by
      intro j
      constructor
      · simp
      · intro h1
        simp at h1
    exact (enemyBulletPass_inv ids _ hinv i).1

/-! ## C5: each destroyed enemy is credited exactly once -/

/-- Damage does not touch an enemy's score value. -/
lemma Enemy.takeDamage_score (e : Enemy) (d : ℚ) : (e.takeDamage d).score = e.score := rfl

/-- Damage does not touch an enemy's activity flag. -/
lemma Enemy.takeDamage_active (e : Enemy) (d : ℚ) : (e.takeDamage d).active = e.active := rfl

/-- Destruction does not touch an enemy's score value. -/
lemma Enemy.destroy_score (e : Enemy) : e.destroy.score = e.score := rfl

/-- Destruction clears the activity flag. -/
lemma Enemy.destroy_active (e : Enemy) : e.destroy.active = false := rfl

/-- `enemyEvol` is reflexive. -/
lemma enemyEvol_refl (e : Enemy) : enemyEvol e e :=
  ⟨rfl, fun h => h, fun _ => rfl⟩

/-- `enemyEvol` composes across two passes. -/
lemma enemyEvol_trans {e f g : Enemy} (h1 : enemyEvol e f) (h2 : enemyEvol f g) :
    enemyEvol e g := by
  obtain ⟨hs1, ha1, hi1⟩ := h1
  obtain ⟨hs2, ha2, hi2⟩ := h2
  refine ⟨hs2.trans hs1, fun h => ha1 (ha2 h), fun h => ?_⟩
  have hfe : f = e := hi1 h
  have : f.active = false := by rw [hfe, h]
  rw [hi2 this, hfe]

/-- `Forall₂ enemyEvol` is reflexive. -/
lemma forall₂_enemyEvol_refl (es : List Enemy) : List.Forall₂ enemyEvol es es := by
  induction es with
  | nil => exact List.Forall₂.nil
  | cons e es ih => exact List.Forall₂.cons (enemyEvol_refl e) ih

/-- `Forall₂ enemyEvol` composes across two passes. -/
lemma forall₂_enemyEvol_trans {es fs gs : List Enemy}
    (h1 : List.Forall₂ enemyEvol es fs) (h2 : List.Forall₂ enemyEvol fs gs) :
    List.Forall₂ enemyEvol es gs := by
  induction h1 generalizing gs with
  | nil =>
    cases h2
    exact List.Forall₂.nil
  | cons he ht ih =>
    cases h2 with
    | cons hg h2t => exact List.Forall₂.cons (enemyEvol_trans he hg) (ih h2t)

/-- No enemy is credited between identical snapshots. -/
lemma creditSum_self (es : List Enemy) : creditSum es es = 0 := by
  induction es with
  | nil => rfl
  | cons e es ih =>
    show (if e.active && !e.active then e.score else 0) + creditSum es es = 0
    rw [ih]
    cases he : e.active <;> simp

/-- The credits of two consecutive passes add up: activity only switches off
and scores are preserved, so each enemy is counted by exactly one of the two
passes. -/
lemma creditSum_trans {es fs gs : List Enemy}
    (h1 : List.Forall₂ enemyEvol es fs) (h2 : List.Forall₂ enemyEvol fs gs) :
    creditSum es gs = creditSum es fs + creditSum fs gs := by
  induction h1 generalizing gs with
  | nil =>
    cases h2
    simp [creditSum]
  | @cons e f es fs he ht ih =>
    cases h2 with
    | @cons _ g _ gs hg h2t =>
      obtain ⟨hs1, ha1, hi1⟩ := he
      obtain ⟨hs2, ha2, hi2⟩ := hg
      have hrec := ih h2t
      show (if e.active && !g.active then e.score else 0) + creditSum es gs =
        ((if e.active && !f.active then e.score else 0) + creditSum es fs) +
        ((if f.active && !g.active then f.score else 0) + creditSum fs gs)
      have hpair : (if e.active && !g.active then e.score else 0) =
          (if e.active && !f.active then e.score else 0) +
          (if f.active && !g.active then f.score else 0) := by
        cases ha : e.active with
        | false =>
          have hfe : f = e := hi1 ha
          have hfa : f.active = false := by rw [hfe, ha]
          simp [ha, hfa]
        | true =>
          cases hb : f.active with
          | false =>
            have hga : g.active = false := by
              cases hgc : g.active
              · rfl
              · have := ha2 hgc
                rw [hb] at this
                exact Bool.noConfusion this
            simp [ha, hb, hga]
          | true =>
            cases hc2 : g.active with
            | false => simp [ha, hb, hc2, hs1]
            | true => simp [ha, hb, hc2]
      rw [hpair, hrec]
      ring

/-- One bullet's inner pass: the enemy list evolves pointwise by
`enemyEvol`, and the bullet's score delta is exactly the credit of the
enemies it destroyed. -/
lemma bulletPass_spec (b : Bullet) (es : List Enemy) :
    List.Forall₂ enemyEvol es (bulletPass b es).2.1 ∧
    (bulletPass b es).2.2 = creditSum es (bulletPass b es).2.1 := by
  induction es generalizing b with
  | nil =>
    exact ⟨List.Forall₂.nil, rfl⟩
  | cons e es ih =>
    by_cases hc : (b.active && e.active && checkCollision b.getRect e.getRect) = true
    · have hea : e.active = true := by
        have h' : (b.active = true ∧ e.active = true) ∧
            checkCollision b.getRect e.getRect = true := by
          simpa using hc
        exact h'.1.2
      by_cases hd : (e.takeDamage b.damage).isDestroyed = true
      · have heq : bulletPass b (e :: es) =
            ((bulletPass { b with active := false } es).1,
             (e.takeDamage b.damage).destroy :: (bulletPass { b with active := false } es).2.1,
             (e.takeDamage b.damage).score + (bulletPass { b with active := false } es).2.2) := by
          simp [bulletPass, hc, hd]
        obtain ⟨hf, hd2⟩ := ih { b with active := false }
        rw [heq]
        constructor
        · refine List.Forall₂.cons ?_ hf
          refine ⟨rfl, ?_, ?_⟩
          · intro hfa
            exact absurd hfa (by simp [Enemy.destroy])
          · intro hia
            rw [hea] at hia
            exact Bool.noConfusion hia
        · show (e.takeDamage b.damage).score + (bulletPass { b with active := false } es).2.2 =
            (if e.active && !(e.takeDamage b.damage).destroy.active then e.score else 0) +
            creditSum es (bulletPass { b with active := false } es).2.1
          rw [hd2, Enemy.takeDamage_score]
          simp [hea, Enemy.destroy_active]
      · have heq : bulletPass b (e :: es) =
            ((bulletPass { b with active := false } es).1,
             e.takeDamage b.damage :: (bulletPass { b with active := false } es).2.1,
             (bulletPass { b with active := false } es).2.2) := by
          simp [bulletPass, hc, hd]
        obtain ⟨hf, hd2⟩ := ih { b with active := false }
        rw [heq]
        constructor
        · refine List.Forall₂.cons ?_ hf
          refine ⟨rfl, ?_, ?_⟩
          · intro _
            exact hea
          · intro hia
            rw [hea] at hia
            exact Bool.noConfusion hia
        · show (bulletPass { b with active := false } es).2.2 =
            (if e.active && !(e.takeDamage b.damage).active then e.score else 0) +
            creditSum es (bulletPass { b with active := false } es).2.1
          rw [hd2, Enemy.takeDamage_active, hea]
          simp
    · have heq : bulletPass b (e :: es) =
          ((bulletPass b es).1,
           e :: (bulletPass b es).2.1,
           (bulletPass b es).2.2) := by
        simp [bulletPass, hc]
      obtain ⟨hf, hd2⟩ := ih b
      rw [heq]
      refine ⟨List.Forall₂.cons (enemyEvol_refl e) hf, ?_⟩
      show (bulletPass b es).2.2 =
        (if e.active && !e.active then e.score else 0) + creditSum es (bulletPass b es).2.1
      rw [hd2]
      cases he : e.active <;> simp

/-- The whole player-bullet pass: the enemy list evolves pointwise by
`enemyEvol`, and the total score delta equals the credit of all enemies
destroyed during the pass. -/
lemma bulletsPass_spec (bs : List Bullet) (es : List Enemy) :
    List.Forall₂ enemyEvol es (bulletsPass bs es).2.1 ∧
    (bulletsPass bs es).2.2 = creditSum es (bulletsPass bs es).2.1 := by
  induction bs generalizing es with
  | nil =>
    exact ⟨forall₂_enemyEvol_refl es, (creditSum_self es).symm⟩
  | cons b bs ih =>
    obtain ⟨hf1, hd1⟩ := bulletPass_spec b es
    obtain ⟨hf2, hd2⟩ := ih (bulletPass b es).2.1
    have heq : bulletsPass (b :: bs) es =
        ((bulletPass b es).1 :: (bulletsPass bs (bulletPass b es).2.1).1,
         (bulletsPass bs (bulletPass b es).2.1).2.1,
         (bulletPass b es).2.2 + (bulletsPass bs (bulletPass b es).2.1).2.2) := rfl
    rw [heq]
    refine ⟨forall₂_enemyEvol_trans hf1 hf2, ?_⟩
    show (bulletPass b es).2.2 + (bulletsPass bs (bulletPass b es).2.1).2.2 =
      creditSum es (bulletsPass bs (bulletPass b es).2.1).2.1
    rw [hd1, hd2, creditSum_trans hf1 hf2]

/-- C5: in one player-bullet × enemy collision pass, the score increases by
exactly the sum of the configured score values of the enemies destroyed
during the pass — each such enemy credited exactly once.  The pointwise
evolution also shows that a destroyed enemy can never be credited again
later: its score is preserved, its activity only switches off, an inactive
enemy is untouched by the pass, and an enemy's score value is the configured
per-type score from `ENEMY_CONFIGS`. -/
theorem score_credit_once :
    (∀ (bs : List Bullet) (es : List Enemy),
        (bulletsPass bs es).2.2 = creditSum es (bulletsPass bs es).2.1) ∧
    (∀ (bs : List Bullet) (es : List Enemy),
        List.Forall₂ enemyEvol es (bulletsPass bs es).2.1) ∧
    (∀ (x y : ℚ) (t : EnemyType) (speedMul randInterval : ℚ),
        (Enemy.make x y t speedMul randInterval).score = (enemyStats t).score) :=
  ⟨fun bs es => (bulletsPass_spec bs es).2,
   fun bs es => (bulletsPass_spec bs es).1,
   fun _ _ _ _ _ => rfl⟩

/-! ## C8: particle initialization -/

/-- Counterexample to C8 as stated: `initParticle` computes the speed as
`Math.random() * maxSpeed + minSpeed`, so under the default configuration
(minSpeed 1, maxSpeed 5) the draw 9/10 at angle 0 (cos = 1, sin = 0) yields
a velocity of squared magnitude (11/2)² > 5² — the speed 11/2 exceeds
`maxSpeed`, so it does not lie within `[minSpeed, maxSpeed]`.  Moreover the
palette index `floor(rColor * (length - 1))` maps the draw 9/10 to index 3 of
the 5-entry default palette, and no draw below 1 can reach index 4, so the
last palette entry is not a possible outcome. -/
theorem initParticle_speed_exceeds_max :
    ((0:ℚ) ≤ 9/10 ∧ (9:ℚ)/10 < 1 ∧ ((1:ℚ))^2 + ((0:ℚ))^2 = 1) ∧
    resMinSpeed defaultPConfig defaultPConfig = 1 ∧
    resMaxSpeed defaultPConfig defaultPConfig = 5 ∧
    (initParticle createParticle 0 0 .explosion defaultPConfig defaultPConfig
        0 0 (9/10) 1 0 0 (9/10)).vx = 11/2 ∧
    (initParticle createParticle 0 0 .explosion defaultPConfig defaultPConfig
        0 0 (9/10) 1 0 0 (9/10)).vy = 0 ∧
    ¬ ((11/2:ℚ))^2 + ((0:ℚ))^2 ≤ ((5:ℚ))^2 ∧
    (resColors defaultPConfig defaultPConfig).length = 5 ∧
    colorIndex (resColors defaultPConfig defaultPConfig) (9/10) = 3 := by
  refine ⟨⟨by norm_num, by norm_num, by norm_num⟩, rfl, rfl, ?_, ?_, ?_, rfl, ?_⟩
  · norm_num [initParticle, resMaxSpeed, resMinSpeed, resUsePhysics, defaultPConfig]
  · norm_num [initParticle, resMaxSpeed, resMinSpeed, resUsePhysics, defaultPConfig]
  · norm_num
  · have hfl : Int.floor ((9:ℚ)/10 * ((5:ℚ) - 1)) = 3 := by
      rw [Int.floor_eq_iff]
      norm_num
    simp [colorIndex, resColors, defaultPConfig, hfl]

/-- C8 (amended): for a physics-enabled effect type, `initParticle` sets a
velocity whose squared speed lies in `[minSpeed², (minSpeed + maxSpeed)²)` —
the code computes `speed = rand·maxSpeed + minSpeed`, which can exceed
`maxSpeed` — and zero velocity when physics is disabled; a size in
`[minSize, minSize + maxSize)`; a palette index that never reaches the last
entry of a palette with at least two colors (`floor(rand·(len−1)) ≤ len−2`);
alpha = 1; life (and maxLife) equal to the configured duration; and
`active = true`.  All `min`/`max` values are the `??`-resolved ones. -/
theorem initParticle_spec (q p0 : Particle) (x y : ℚ) (t : ParticleType)
    (cfg sys : PConfig) (rotVal rRotSpeed rSpeed cosAngle sinAngle rSize rColor : ℚ)
    (hq : q = initParticle p0 x y t cfg sys rotVal rRotSpeed rSpeed cosAngle sinAngle rSize rColor)
    (hs0 : 0 ≤ rSpeed) (hs1 : rSpeed < 1)
    (hz0 : 0 ≤ rSize) (hz1 : rSize < 1)
    (hc0 : 0 ≤ rColor) (hc1 : rColor < 1)
    (hunit : cosAngle ^ 2 + sinAngle ^ 2 = 1)
    (hminsp : 0 ≤ resMinSpeed cfg sys) (hmaxsp : 0 < resMaxSpeed cfg sys)
    (hminsz : 0 ≤ resMinSize cfg sys) (hmaxsz : 0 < resMaxSize cfg sys) :
    (resUsePhysics cfg = true →
        (resMinSpeed cfg sys) ^ 2 ≤ q.vx ^ 2 + q.vy ^ 2 ∧
        q.vx ^ 2 + q.vy ^ 2 < (resMinSpeed cfg sys + resMaxSpeed cfg sys) ^ 2) ∧
    (resUsePhysics cfg = false → q.vx = 0 ∧ q.vy = 0) ∧
    (resMinSize cfg sys ≤ q.size ∧
      q.size < resMinSize cfg sys + resMaxSize cfg sys) ∧
    (2 ≤ (resColors cfg sys).length →
        colorIndex (resColors cfg sys) rColor ≤ (resColors cfg sys).length - 2) ∧
    q.alpha = 1 ∧ q.life = resLife cfg sys ∧ q.maxLife = resLife cfg sys ∧
    q.active = true := by
  subst hq
  have hSmin : resMinSpeed cfg sys ≤ rSpeed * resMaxSpeed cfg sys + resMinSpeed cfg sys := by
    nlinarith
  have hSub : rSpeed * resMaxSpeed cfg sys + resMinSpeed cfg sys <
      resMinSpeed cfg sys + resMaxSpeed cfg sys := by
    nlinarith
  have hS0 : 0 ≤ rSpeed * resMaxSpeed cfg sys + resMinSpeed cfg sys :=
    le_trans hminsp hSmin
  refine ⟨?_, ?_, ?_, ?_, rfl, rfl, rfl, rfl⟩
  · intro hp
    have hvx : (initParticle p0 x y t cfg sys rotVal rRotSpeed rSpeed cosAngle sinAngle
        rSize rColor).vx = cosAngle * (rSpeed * resMaxSpeed cfg sys + resMinSpeed cfg sys) := by
      simp [initParticle, hp]
    have hvy : (initParticle p0 x y t cfg sys rotVal rRotSpeed rSpeed cosAngle sinAngle
        rSize rColor).vy = sinAngle * (rSpeed * resMaxSpeed cfg sys + resMinSpeed cfg sys) := by
      simp [initParticle, hp]
    rw [hvx, hvy]
    have hsq : (cosAngle * (rSpeed * resMaxSpeed cfg sys + resMinSpeed cfg sys)) ^ 2 +
        (sinAngle * (rSpeed * resMaxSpeed cfg sys + resMinSpeed cfg sys)) ^ 2 =
        (rSpeed * resMaxSpeed cfg sys + resMinSpeed cfg sys) ^ 2 := by
      have : (cosAngle * (rSpeed * resMaxSpeed cfg sys + resMinSpeed cfg sys)) ^ 2 +
          (sinAngle * (rSpeed * resMaxSpeed cfg sys + resMinSpeed cfg sys)) ^ 2 =
          (cosAngle ^ 2 + sinAngle ^ 2) *
            (rSpeed * resMaxSpeed cfg sys + resMinSpeed cfg sys) ^ 2 := by
        ring
      rw [this, hunit, one_mul]
    rw [hsq]
    constructor
    · exact pow_le_pow_left hminsp hSmin 2
    · exact pow_lt_pow_left hSub hS0 (by norm_num)
  · intro hp
    constructor <;> simp [initParticle, hp]
  · constructor
    · have : (initParticle p0 x y t cfg sys rotVal rRotSpeed rSpeed cosAngle sinAngle
          rSize rColor).size = rSize * resMaxSize cfg sys + resMinSize cfg sys := by
        simp [initParticle]
      rw [this]
      nlinarith
    · have : (initParticle p0 x y t cfg sys rotVal rRotSpeed rSpeed cosAngle sinAngle
          rSize rColor).size = rSize * resMaxSize cfg sys + resMinSize cfg sys := by
        simp [initParticle]
      rw [this]
      nlinarith
  · intro hlen
    unfold colorIndex
    have hn1 : (1:ℚ) ≤ ((resColors cfg sys).length : ℚ) - 1 := by
      have h2 : (2:ℚ) ≤ ((resColors cfg sys).length : ℚ) := by exact_mod_cast hlen
      linarith
    have hfl : Int.floor (rColor * (((resColors cfg sys).length : ℚ) - 1)) ≤
        ((resColors cfg sys).length : ℤ) - 2 := by
      have hlt : Int.floor (rColor * (((resColors cfg sys).length : ℚ) - 1)) <
          ((resColors cfg sys).length : ℤ) - 1 := by
        rw [Int.floor_lt]
        push_cast
        nlinarith
      omega
    rw [Int.toNat_le]
    omega

/-- Witness for C8 (amended): under the default configuration, the draw 1/2
at angle 0 produces a velocity of squared magnitude in `[1², (1+5)²)`, and
the computed palette index 2 stays below the last index of the 5-entry
palette. -/
theorem initParticle_spec_witness :
    ((0:ℚ) ≤ 1/2 ∧ (1/2:ℚ) < 1 ∧ ((1:ℚ)^2 + (0:ℚ)^2 = 1) ∧
      0 < resMaxSpeed defaultPConfig defaultPConfig ∧
      2 ≤ (resColors defaultPConfig defaultPConfig).length) ∧
    ((resMinSpeed defaultPConfig defaultPConfig) ^ 2 ≤
        (initParticle createParticle 0 0 .explosion defaultPConfig defaultPConfig
          0 0 (1/2) 1 0 (1/2) (1/2)).vx ^ 2 +
        (initParticle createParticle 0 0 .explosion defaultPConfig defaultPConfig
          0 0 (1/2) 1 0 (1/2) (1/2)).vy ^ 2 ∧
      (initParticle createParticle 0 0 .explosion defaultPConfig defaultPConfig
          0 0 (1/2) 1 0 (1/2) (1/2)).vx ^ 2 +
        (initParticle createParticle 0 0 .explosion defaultPConfig defaultPConfig
          0 0 (1/2) 1 0 (1/2) (1/2)).vy ^ 2 <
        (resMinSpeed defaultPConfig defaultPConfig +
          resMaxSpeed defaultPConfig defaultPConfig) ^ 2) ∧
    colorIndex (resColors defaultPConfig defaultPConfig) (1/2) ≤
      (resColors defaultPConfig defaultPConfig).length - 2 ∧
    (initParticle createParticle 0 0 .explosion defaultPConfig defaultPConfig
      0 0 (1/2) 1 0 (1/2) (1/2)).active = true := by
  have h := initParticle_spec
    (initParticle createParticle 0 0 .explosion defaultPConfig defaultPConfig
      0 0 (1/2) 1 0 (1/2) (1/2))
    createParticle 0 0 .explosion defaultPConfig defaultPConfig
    0 0 (1/2) 1 0 (1/2) (1/2) rfl
    (by norm_num) (by norm_num) (by norm_num) (by norm_num) (by norm_num) (by norm_num)
    (by norm_num)
    (by norm_num [resMinSpeed, defaultPConfig])
    (by norm_num [resMaxSpeed, defaultPConfig])
    (by norm_num [resMinSize, defaultPConfig])
    (by norm_num [resMaxSize, defaultPConfig])
  refine ⟨⟨by norm_num, by norm_num, by norm_num,
    by norm_num [resMaxSpeed, defaultPConfig],
    by norm_num [resColors, defaultPConfig]⟩, ?_, ?_, ?_⟩
  · exact h.1 rfl
  · exact h.2.2.2.1 (by norm_num [resColors, defaultPConfig])
  · exact h.2.2.2.2.2.2.2

end PlaneBattle
